import Mathlib

/-!
Verification development for the flotio core-api build-pod orchestrator
(`pkg/kubernetes/resources.go`, `pkg/kubernetes/pod.go`, `pkg/db/models.go`,
and the build-container script that consumes the ConfigMap key encoding).

Go code is shallowly embedded: pure helpers become Lean functions, the
database and cluster calls become explicit inputs (query results passed as
`Except`/`Bool` values), and every fallible step returns `Except String`.
-/

/-- Decimal digit character, as produced by the Go `strconv.Itoa` and
`fmt.Sprintf("%d", ...)` for each digit value `d < 10`. -/
def digitChar (d : Nat) : Char := Char.ofNat (48 + d)

/-- Decimal rendering of a natural number, the embedding of the Go
`strconv.Itoa` / `fmt.Sprintf("%d", n)` for non-negative values. -/
def itoa (n : Nat) : String :=
  if n = 0 then "0" else String.mk (((Nat.digits 10 n).map digitChar).reverse)

/-- Pod name `build-<id>` (pod.go line 42). -/
def podName (id : Nat) : String := "build-" ++ itoa id

/-- ConfigMap name `build-<id>-env-files` (resources.go line 33). -/
def configMapName (id : Nat) : String := "build-" ++ itoa id ++ "-env-files"

/-- Secret name `build-<id>-keystore` (resources.go line 99). -/
def keystoreSecretName (id : Nat) : String := "build-" ++ itoa id ++ "-keystore"

/-- PVC name `build-<id>-artifacts` (resources.go line 137). -/
def pvcName (id : Nat) : String := "build-" ++ itoa id ++ "-artifacts"

theorem digitChar_inj10 : ∀ d < 10, ∀ e < 10, digitChar d = digitChar e → d = e := by decide

theorem digitChar_ne_dash : ∀ d < 10, digitChar d ≠ '-' := by decide

theorem map_digitChar_inj :
    ∀ l₁ l₂ : List Nat, (∀ d ∈ l₁, d < 10) → (∀ d ∈ l₂, d < 10) →
      l₁.map digitChar = l₂.map digitChar → l₁ = l₂ := by
  intro l₁
  induction l₁ with
  | nil =>
    intro l₂ _ _ h
    cases l₂ <;> simp_all
  | cons a t ih =>
    intro l₂ h₁ h₂ h
    cases l₂ with
    | nil => simp at h
    | cons b t₂ =>
      simp only [List.map_cons, List.cons.injEq] at h
      obtain ⟨hab, ht⟩ := h
      have ha : a < 10 := h₁ a (by simp)
      have hb : b < 10 := h₂ b (by simp)
      have hEq : a = b := digitChar_inj10 a ha b hb hab
      subst hEq
      have := ih t₂ (fun d hd => h₁ d (by simp [hd])) (fun d hd => h₂ d (by simp [hd])) ht
      simp [this]

theorem data_mk (l : List Char) : (String.mk l).data = l := rfl

theorem itoa_pos_ne_zero_str {n : Nat} (hn : n ≠ 0) :
    String.mk (((Nat.digits 10 n).map digitChar).reverse) ≠ "0" := by
  intro h
  have hdata := congrArg String.data h
  rw [data_mk] at hdata
  have h0 : ("0" : String).data = ['0'] := rfl
  rw [h0] at hdata
  have hrev := congrArg List.reverse hdata
  simp only [List.reverse_reverse] at hrev
  cases hd : Nat.digits 10 n with
  | nil => rw [hd] at hrev; simp at hrev
  | cons d ds =>
    rw [hd] at hrev
    simp only [List.map_cons] at hrev
    have hds : ds = [] := by
      have hlen := congrArg List.length hrev
      simp at hlen
      exact hlen
    subst hds
    simp only [List.map_nil] at hrev
    have hd0 : digitChar d = '0' := by
      have : ([digitChar d] : List Char) = ['0'] := hrev
      simpa using this
    have hdlt : d < 10 := Nat.digits_lt_base (by norm_num) (by rw [hd]; simp)
    have hdz : d = 0 := digitChar_inj10 d hdlt 0 (by norm_num) (by rw [hd0]; rfl)
    subst hdz
    have hofd := Nat.ofDigits_digits 10 n
    rw [hd] at hofd
    simp [Nat.ofDigits] at hofd
    exact hn hofd.symm

theorem itoa_inj {m n : Nat} (h : itoa m = itoa n) : m = n := by
  unfold itoa at h
  by_cases hm : m = 0 <;> by_cases hn : n = 0 <;> simp only [hm, hn, if_true, if_false] at h ⊢
  · exact absurd h.symm (itoa_pos_ne_zero_str hn)
  · exact absurd h (itoa_pos_ne_zero_str hm)
  · have hdata := congrArg String.data h
    rw [data_mk, data_mk] at hdata
    have hrev := congrArg List.reverse hdata
    simp only [List.reverse_reverse] at hrev
    have hdig := map_digitChar_inj (Nat.digits 10 m) (Nat.digits 10 n)
      (fun d hd => Nat.digits_lt_base (by norm_num) hd)
      (fun d hd => Nat.digits_lt_base (by norm_num) hd) hrev
    have h1 := Nat.ofDigits_digits 10 m
    rw [hdig, Nat.ofDigits_digits] at h1
    exact h1.symm

theorem dash_not_mem_itoa (n : Nat) : '-' ∉ (itoa n).data := by
  unfold itoa
  by_cases hn : n = 0
  · simp [hn]
  · simp only [hn, if_false]
    intro hmem
    rw [List.mem_reverse, List.mem_map] at hmem
    obtain ⟨d, hd, hdc⟩ := hmem
    exact digitChar_ne_dash d (Nat.digits_lt_base (by norm_num) hd) hdc

theorem itoa_data_inj {m n : Nat} (h : (itoa m).data = (itoa n).data) : m = n :=
  itoa_inj (String.ext h)

theorem append_ne_of_rev_two {s₁ s₂ : List Char} (d₁ d₂ : List Char)
    (h₁ : 2 ≤ s₁.length) (h₂ : 2 ≤ s₂.length)
    (hne : s₁.reverse[1]? ≠ s₂.reverse[1]?) : d₁ ++ s₁ ≠ d₂ ++ s₂ := by
  intro h
  have hr := congrArg List.reverse h
  rw [List.reverse_append, List.reverse_append] at hr
  have hl₁ : 1 < s₁.reverse.length := by
    rw [List.length_reverse]
    omega
  have hl₂ : 1 < s₂.reverse.length := by
    rw [List.length_reverse]
    omega
  have e₁ : (s₁.reverse ++ d₁.reverse)[1]? = s₁.reverse[1]? := by
    rw [List.getElem?_append, if_pos hl₁]
  have e₂ : (s₂.reverse ++ d₂.reverse)[1]? = s₂.reverse[1]? := by
    rw [List.getElem?_append, if_pos hl₂]
  have hq := congrArg (fun l : List Char => l[1]?) hr
  simp only at hq
  rw [e₁, e₂] at hq
  exact hne hq

theorem podName_data (x : Nat) : (podName x).data = "build-".data ++ (itoa x).data := by
  rw [podName, String.data_append]

theorem configMapName_data (x : Nat) :
    (configMapName x).data = "build-".data ++ ((itoa x).data ++ "-env-files".data) := by
  rw [configMapName, String.data_append, String.data_append, List.append_assoc]

theorem keystoreSecretName_data (x : Nat) :
    (keystoreSecretName x).data = "build-".data ++ ((itoa x).data ++ "-keystore".data) := by
  rw [keystoreSecretName, String.data_append, String.data_append, List.append_assoc]

theorem pvcName_data (x : Nat) :
    (pvcName x).data = "build-".data ++ ((itoa x).data ++ "-artifacts".data) := by
  rw [pvcName, String.data_append, String.data_append, List.append_assoc]

theorem podName_inj {x y : Nat} (h : podName x = podName y) : x = y := by
  have hd := congrArg String.data h
  rw [podName_data, podName_data] at hd
  exact itoa_data_inj (List.append_cancel_left hd)

theorem configMapName_inj {x y : Nat} (h : configMapName x = configMapName y) : x = y := by
  have hd := congrArg String.data h
  rw [configMapName_data, configMapName_data] at hd
  have h1 := List.append_cancel_left hd
  exact itoa_data_inj (List.append_cancel_right h1)

theorem keystoreSecretName_inj {x y : Nat}
    (h : keystoreSecretName x = keystoreSecretName y) : x = y := by
  have hd := congrArg String.data h
  rw [keystoreSecretName_data, keystoreSecretName_data] at hd
  have h1 := List.append_cancel_left hd
  exact itoa_data_inj (List.append_cancel_right h1)

theorem pvcName_inj {x y : Nat} (h : pvcName x = pvcName y) : x = y := by
  have hd := congrArg String.data h
  rw [pvcName_data, pvcName_data] at hd
  have h1 := List.append_cancel_left hd
  exact itoa_data_inj (List.append_cancel_right h1)

theorem itoa_ne_append_suffix (x y : Nat) (s : List Char) (hs : '-' ∈ s) :
    (itoa x).data ≠ (itoa y).data ++ s := by
  intro h
  exact dash_not_mem_itoa x (h ▸ List.mem_append_right _ hs)

theorem podName_ne_configMapName (x y : Nat) : podName x ≠ configMapName y := by
  intro h
  have hd := congrArg String.data h
  rw [podName_data, configMapName_data] at hd
  exact itoa_ne_append_suffix x y _ (by decide) (List.append_cancel_left hd)

theorem podName_ne_keystoreSecretName (x y : Nat) : podName x ≠ keystoreSecretName y := by
  intro h
  have hd := congrArg String.data h
  rw [podName_data, keystoreSecretName_data] at hd
  exact itoa_ne_append_suffix x y _ (by decide) (List.append_cancel_left hd)

theorem podName_ne_pvcName (x y : Nat) : podName x ≠ pvcName y := by
  intro h
  have hd := congrArg String.data h
  rw [podName_data, pvcName_data] at hd
  exact itoa_ne_append_suffix x y _ (by decide) (List.append_cancel_left hd)

theorem configMapName_ne_keystoreSecretName (x y : Nat) :
    configMapName x ≠ keystoreSecretName y := by
  intro h
  have hd := congrArg String.data h
  rw [configMapName_data, keystoreSecretName_data] at hd
  have h1 := List.append_cancel_left hd
  exact append_ne_of_rev_two _ _ (by decide) (by decide) (by decide) h1

theorem configMapName_ne_pvcName (x y : Nat) : configMapName x ≠ pvcName y := by
  intro h
  have hd := congrArg String.data h
  rw [configMapName_data, pvcName_data] at hd
  have h1 := List.append_cancel_left hd
  exact append_ne_of_rev_two _ _ (by decide) (by decide) (by decide) h1

theorem keystoreSecretName_ne_pvcName (x y : Nat) : keystoreSecretName x ≠ pvcName y := by
  intro h
  have hd := congrArg String.data h
  rw [keystoreSecretName_data, pvcName_data] at hd
  have h1 := List.append_cancel_left hd
  exact append_ne_of_rev_two _ _ (by decide) (by decide) (by decide) h1

/-- C1: for every BuildID the four derived resource names (Pod `build-<x>`,
ConfigMap `build-<x>-env-files`, Secret `build-<x>-keystore`, PVC
`build-<x>-artifacts`) are pure deterministic functions of the BuildID alone,
identical across repeated evaluations, and for two distinct BuildIDs the two
sets of four names are pairwise distinct (all eight names are distinct). -/
theorem c1_resource_names_deterministic_and_distinct (x y : Nat) (hxy : x ≠ y) :
    (podName x = podName x ∧ configMapName x = configMapName x ∧
     keystoreSecretName x = keystoreSecretName x ∧ pvcName x = pvcName x) ∧
    [podName x, configMapName x, keystoreSecretName x, pvcName x,
     podName y, configMapName y, keystoreSecretName y, pvcName y].Nodup := by
  refine ⟨⟨rfl, rfl, rfl, rfl⟩, ?_⟩
  simp only [List.nodup_cons, List.mem_cons, List.not_mem_nil, or_false, not_or,
    List.nodup_nil, and_true]
  refine ⟨⟨?_, ?_, ?_, ?_, ?_, ?_, ?_⟩, ⟨?_, ?_, ?_, ?_, ?_, ?_⟩,
    ⟨?_, ?_, ?_, ?_, ?_⟩, ⟨?_, ?_, ?_, ?_⟩, ⟨?_, ?_, ?_⟩, ⟨?_, ?_⟩, ?_⟩
  · exact podName_ne_configMapName x x
  · exact podName_ne_keystoreSecretName x x
  · exact podName_ne_pvcName x x
  · exact fun h => hxy (podName_inj h)
  · exact podName_ne_configMapName x y
  · exact podName_ne_keystoreSecretName x y
  · exact podName_ne_pvcName x y
  · exact configMapName_ne_keystoreSecretName x x
  · exact configMapName_ne_pvcName x x
  · exact (podName_ne_configMapName y x).symm
  · exact fun h => hxy (configMapName_inj h)
  · exact configMapName_ne_keystoreSecretName x y
  · exact configMapName_ne_pvcName x y
  · exact keystoreSecretName_ne_pvcName x x
  · exact (podName_ne_keystoreSecretName y x).symm
  · exact (configMapName_ne_keystoreSecretName y x).symm
  · exact fun h => hxy (keystoreSecretName_inj h)
  · exact keystoreSecretName_ne_pvcName x y
  · exact (podName_ne_pvcName y x).symm
  · exact (configMapName_ne_pvcName y x).symm
  · exact (keystoreSecretName_ne_pvcName y x).symm
  · exact fun h => hxy (pvcName_inj h)
  · exact podName_ne_configMapName y y
  · exact podName_ne_keystoreSecretName y y
  · exact podName_ne_pvcName y y
  · exact configMapName_ne_keystoreSecretName y y
  · exact configMapName_ne_pvcName y y
  · exact ⟨keystoreSecretName_ne_pvcName y y, not_false⟩

/-- Witness for C1 at the concrete BuildIDs 1 and 2. -/
theorem c1_resource_names_deterministic_and_distinct_witness :
    (podName 1 = podName 1 ∧ configMapName 1 = configMapName 1 ∧
     keystoreSecretName 1 = keystoreSecretName 1 ∧ pvcName 1 = pvcName 1) ∧
    [podName 1, configMapName 1, keystoreSecretName 1, pvcName 1,
     podName 2, configMapName 2, keystoreSecretName 2, pvcName 2].Nodup :=
  c1_resource_names_deterministic_and_distinct 1 2 (by decide)

/-- Character-by-character replacement helper of resources.go lines 212-222:
iterates over the characters of `s`, appending `new` whenever the character
equals the one-character string `old`, the character itself otherwise. -/
def replaceAll (s old new : String) : String :=
  String.mk (s.data.foldl (fun acc c => acc ++ (if String.mk [c] = old then new.data else [c])) [])

/-- Path encoding of resources.go lines 53-59: every "/" becomes "__". -/
def encodePath (p : String) : String := replaceAll p "/" "__"

/-- ConfigMap data key for one entry (resources.go lines 52-60): the entry key
alone when the target path is empty, otherwise `<key>::<encoded path>`. -/
def configMapFileName (key path : String) : String :=
  if path = "" then key else key ++ "::" ++ encodePath path

/-- Per-character form of the encoding, used to reason about `replaceAll`. -/
def encodeChar (c : Char) : List Char := if c = '/' then ['_', '_'] else [c]

/-- Repeated per-character encoding over a character list. -/
def encodeChars : List Char → List Char
  | [] => []
  | c :: rest => encodeChar c ++ encodeChars rest

/-- Decoding loop of the build script (`dest_path="${dest_path//__/\/}"`):
non-overlapping occurrences of "__", scanned left to right, become "/". -/
def decodePathChars : List Char → List Char
  | [] => []
  | [c] => [c]
  | c1 :: c2 :: rest =>
    if c1 = '_' ∧ c2 = '_' then '/' :: decodePathChars rest
    else c1 :: decodePathChars (c2 :: rest)

/-- String-level decoding of an encoded path. -/
def decodePath (p : String) : String := String.mk (decodePathChars p.data)

/-- Leftmost "::" search of the build script (`${filename#*::}`): returns the
characters after the first "::" occurrence, or none when there is no "::". -/
def splitSep : List Char → Option (List Char)
  | [] => none
  | [_] => none
  | c1 :: c2 :: rest => if c1 = ':' ∧ c2 = ':' then some rest else splitSep (c2 :: rest)

/-- Filename handling of the build script: a data key containing "::" is split
at the first "::" and the remainder is decoded into a destination path; a key
without "::" is used as a plain project-root file name. -/
def decodeKey (f : String) : String :=
  match splitSep f.data with
  | some rest => String.mk (decodePathChars rest)
  | none => f

/-- A path is decodable when it has no two adjacent underscores and no
underscore immediately followed by a slash. -/
def pathDecodable : List Char → Bool
  | [] => true
  | [_] => true
  | c1 :: c2 :: rest => !(c1 = '_' && (c2 = '_' || c2 = '/')) && pathDecodable (c2 :: rest)

theorem replaceAll_slash_foldl (l : List Char) (acc : List Char) :
    l.foldl (fun acc c => acc ++ (if String.mk [c] = "/" then "__".data else [c])) acc =
      acc ++ encodeChars l := by
  induction l generalizing acc with
  | nil => simp [encodeChars]
  | cons c rest ih =>
    rw [List.foldl_cons, ih, encodeChars, List.append_assoc]
    by_cases hc : c = '/'
    · subst hc
      rw [if_pos rfl]
      rfl
    · rw [if_neg, encodeChar, if_neg hc]
      intro h
      exact hc (by simpa using congrArg String.data h)

theorem encodePath_data (p : String) : (encodePath p).data = encodeChars p.data := by
  rw [encodePath, replaceAll, data_mk, replaceAll_slash_foldl]
  rfl

theorem slash_not_mem_encodeChars (l : List Char) : '/' ∉ encodeChars l := by
  induction l with
  | nil => simp [encodeChars]
  | cons c rest ih =>
    rw [encodeChars]
    intro hmem
    rcases List.mem_append.mp hmem with h | h
    · rw [encodeChar] at h
      by_cases hc : c = '/'
      · rw [if_pos hc] at h
        simp at h
      · rw [if_neg hc] at h
        simp at h
        exact hc h.symm
    · exact ih h

theorem encode_decode_of_no_slash :
    ∀ n l, l.length ≤ n → '/' ∉ l → encodeChars (decodePathChars l) = l := by
  intro n
  induction n with
  | zero =>
    intro l hl _
    rw [List.length_eq_zero.mp (Nat.le_zero.mp hl)]
    rfl
  | succ n ih =>
    intro l hl hns
    match l with
    | [] => rfl
    | [c] =>
      have hc : ¬c = '/' := fun h => hns (by rw [h]; simp)
      rw [decodePathChars, encodeChars, encodeChars, encodeChar, if_neg hc]
      rfl
    | c1 :: c2 :: rest =>
      rw [decodePathChars]
      by_cases hu : c1 = '_' ∧ c2 = '_'
      · rw [if_pos hu, encodeChars, encodeChar, if_pos rfl]
        have := ih rest (by simp at hl; omega) (fun h => hns (by simp [h]))
        rw [this, hu.1, hu.2]
        rfl
      · rw [if_neg hu, encodeChars, encodeChar, if_neg (fun h => hns (by rw [h]; simp))]
        have := ih (c2 :: rest) (by simp at hl ⊢; omega) (fun h => hns (List.mem_cons_of_mem _ h))
        rw [this]
        rfl

theorem decode_encode_of_decodable :
    ∀ n l, l.length ≤ n → pathDecodable l = true →
      decodePathChars (encodeChars l) = l := by
  intro n
  induction n with
  | zero =>
    intro l hl _
    rw [List.length_eq_zero.mp (Nat.le_zero.mp hl)]
    rfl
  | succ n ih =>
    intro l hl hdec
    match l with
    | [] => rfl
    | c :: rest =>
      by_cases hc : c = '/'
      · subst hc
        rw [encodeChars, encodeChar, if_pos rfl]
        have hrest : pathDecodable rest = true := by
          cases rest with
          | nil => rfl
          | cons d tl =>
            rw [pathDecodable, Bool.and_eq_true] at hdec
            exact hdec.2
        have := ih rest (by simp at hl; omega) hrest
        rw [List.cons_append, List.cons_append, List.nil_append, decodePathChars, if_pos ⟨rfl, rfl⟩, this]
      · rw [encodeChars, encodeChar, if_neg hc, List.cons_append, List.nil_append]
        have hrest : pathDecodable rest = true := by
          cases rest with
          | nil => rfl
          | cons d tl =>
            rw [pathDecodable, Bool.and_eq_true] at hdec
            exact hdec.2
        have htl := ih rest (by simp at hl; omega) hrest
        cases hr : encodeChars rest with
        | nil =>
          have : rest = [] := by
            cases rest with
            | nil => rfl
            | cons d tl =>
              exfalso
              rw [encodeChars, encodeChar] at hr
              by_cases hd : d = '/' <;> simp [hd] at hr
          rw [this]
          rfl
        | cons e tl =>
          rw [decodePathChars]
          have hne : ¬(c = '_' ∧ e = '_') := by
            intro hand
            cases rest with
            | nil => rw [encodeChars] at hr; exact absurd hr (by simp)
            | cons d tl₂ =>
              rw [encodeChars, encodeChar] at hr
              rw [pathDecodable, Bool.and_eq_true] at hdec
              have h1 : ¬c = '_' ∨ ¬d = '_' ∧ ¬d = '/' := by simpa using hdec.1
              have h2 : ¬d = '_' ∧ ¬d = '/' := h1.resolve_left (fun h => h hand.1)
              rw [if_neg h2.2] at hr
              have hde : d = e := by
                have := congrArg List.head? hr
                simpa using this
              exact h2.1 (hde.trans hand.2)
          rw [if_neg hne, ← hr, htl]

theorem splitSep_append :
    ∀ l enc : List Char, ':' ∉ l → splitSep (l ++ ':' :: ':' :: enc) = some enc := by
  intro l
  induction l with
  | nil =>
    intro enc _
    rw [List.nil_append, splitSep, if_pos ⟨rfl, rfl⟩]
  | cons c rest ih =>
    intro enc hc
    have hcne : c ≠ ':' := fun h => hc (by simp [h])
    cases rest with
    | nil =>
      rw [List.cons_append, List.nil_append, splitSep, if_neg (fun h => hcne h.1),
        splitSep, if_pos ⟨rfl, rfl⟩]
    | cons d tl =>
      rw [List.cons_append, List.cons_append, splitSep, if_neg (fun h => hcne h.1)]
      have := ih enc (fun h => hc (List.mem_cons_of_mem _ h))
      rw [List.cons_append] at this
      exact this

/-- C2 (amended): the file-placement encoding round-trips as follows. Decoding
the encoding of "android/app/google-services.json" yields the original path;
for every path containing "/", `encode (decode (encode p)) = encode p`; and for
every entry whose key contains no ":" and whose nonempty target path contains
neither "__" nor "_/" as a substring, splitting the ConfigMap data key on the
first "::" and restoring "/" from "__" recovers the path. -/
theorem c2_encoding_roundtrip_amended :
    decodePath (encodePath "android/app/google-services.json") =
      "android/app/google-services.json" ∧
    (∀ p : String, '/' ∈ p.data →
      encodePath (decodePath (encodePath p)) = encodePath p) ∧
    (∀ key path : String, ':' ∉ key.data → path ≠ "" →
      pathDecodable path.data = true →
      decodeKey (configMapFileName key path) = path) := by
  refine ⟨by decide, ?_, ?_⟩
  · intro p _
    apply String.ext
    rw [encodePath_data, encodePath_data, decodePath, data_mk, encodePath_data]
    exact encode_decode_of_no_slash (encodeChars p.data).length _ le_rfl
      (slash_not_mem_encodeChars _)
  · intro key path hk hp hdec
    rw [configMapFileName, if_neg hp]
    unfold decodeKey
    have hdata : (key ++ "::" ++ encodePath path).data =
        key.data ++ ':' :: ':' :: (encodePath path).data := by
      rw [String.data_append, String.data_append, List.append_assoc]
      rfl
    rw [hdata, splitSep_append _ _ hk]
    show String.mk (decodePathChars (encodePath path).data) = path
    rw [encodePath_data, decode_encode_of_decodable path.data.length _ le_rfl hdec]

/-- C2 fails as originally stated: the claim that decoding always recovers the
path is false for the path "a__b" (decoded as "a/b") and for the path "_/"
(whose encoding decodes to "/_"). -/
theorem c2_claim_counterexample :
    decodeKey (configMapFileName "k" "a__b") ≠ "a__b" ∧
    decodeKey (configMapFileName "k" "_/") ≠ "_/" := by
  constructor <;> decide

/-- Witness for C2 at the concrete entry of the spec scenario. -/
theorem c2_encoding_roundtrip_amended_witness :
    decodeKey (configMapFileName "gs" "android/app/g.json") = "android/app/g.json" ∧
    encodePath (decodePath (encodePath "android/app/g.json")) =
      encodePath "android/app/g.json" :=
  ⟨c2_encoding_roundtrip_amended.2.2 "gs" "android/app/g.json"
      (by decide) (by decide) (by decide),
    c2_encoding_roundtrip_amended.2.1 "android/app/g.json" (by decide)⟩

/-- Standard base64 alphabet of RFC 4648, the alphabet of the Go
`encoding/base64.StdEncoding`. -/
def b64Alphabet : List Char :=
  "ABCDEFGHIJKLMNOPQRSTUVWXYZabcdefghijklmnopqrstuvwxyz0123456789+/".data

/-- Alphabet character for a 6-bit group. -/
def b64Char (n : Nat) : Char := b64Alphabet.getD n 'A'

/-- Alphabet lookup: the 6-bit value of a character, none for characters
outside the alphabet (such as the padding character). -/
def b64Index? (c : Char) : Option Nat := b64Alphabet.findIdx? (fun d => d = c)

/-- Base64 encoding of a byte list (values < 256), as by the Go
`base64.StdEncoding.EncodeToString`. -/
def b64EncodeBytes : List Nat → List Char
  | b1 :: b2 :: b3 :: rest =>
    b64Char (b1 / 4) :: b64Char (b1 % 4 * 16 + b2 / 16) ::
      b64Char (b2 % 16 * 4 + b3 / 64) :: b64Char (b3 % 64) :: b64EncodeBytes rest
  | [b1] => [b64Char (b1 / 4), b64Char (b1 % 4 * 16), '=', '=']
  | [b1, b2] => [b64Char (b1 / 4), b64Char (b1 % 4 * 16 + b2 / 16), b64Char (b2 % 16 * 4), '=']
  | [] => []

/-- Decoding of one non-final quadruple: all four characters must be alphabet
characters (padding mid-stream is an error, as in Go). -/
def b64DecodeQuad (c1 c2 c3 c4 : Char) : Option (List Nat) :=
  match b64Index? c1, b64Index? c2, b64Index? c3, b64Index? c4 with
  | some n1, some n2, some n3, some n4 =>
    some [n1 * 4 + n2 / 16, n2 % 16 * 16 + n3 / 4, n3 % 4 * 64 + n4]
  | _, _, _, _ => none

/-- Decoding of the final quadruple, honouring the `=` padding forms of
`StdEncoding` ("xx==" for one byte, "xxx=" for two, no padding for three).
Like the Go non-strict `StdEncoding`, trailing non-zero bits are accepted. -/
def b64DecodeLast (c1 c2 c3 c4 : Char) : Option (List Nat) :=
  match b64Index? c1, b64Index? c2 with
  | some n1, some n2 =>
    if c3 = '=' then
      if c4 = '=' then some [n1 * 4 + n2 / 16] else none
    else
      match b64Index? c3 with
      | some n3 =>
        if c4 = '=' then some [n1 * 4 + n2 / 16, n2 % 16 * 16 + n3 / 4]
        else
          match b64Index? c4 with
          | some n4 => some [n1 * 4 + n2 / 16, n2 % 16 * 16 + n3 / 4, n3 % 4 * 64 + n4]
          | none => none
      | none => none
  | _, _ => none

/-- Base64 decoding of a character list, as by the Go
`base64.StdEncoding.DecodeString` on newline-free input: the length must be a
multiple of four, and only the final quadruple may carry padding. -/
def b64DecodeChars : List Char → Option (List Nat)
  | [] => some []
  | c1 :: c2 :: c3 :: c4 :: rest =>
    match rest with
    | [] => b64DecodeLast c1 c2 c3 c4
    | _ =>
      match b64DecodeQuad c1 c2 c3 c4, b64DecodeChars rest with
      | some bs, some tl => some (bs ++ tl)
      | _, _ => none
  | _ => none

/-- String-level decoding: the Go `string(decodedBytes)` is modelled by mapping
each byte to the character with that code point (exact for byte content). -/
def b64DecodeString (s : String) : Option String :=
  (b64DecodeChars s.data).map fun bs => String.mk (bs.map Char.ofNat)

/-- String-level encoding of the character codes of a string. -/
def b64EncodeString (s : String) : String :=
  String.mk (b64EncodeBytes (s.data.map Char.toNat))

theorem b64Index_b64Char : ∀ n < 64, b64Index? (b64Char n) = some n := by decide

theorem b64Char_ne_pad : ∀ n < 64, b64Char n ≠ '=' := by decide

theorem b64EncodeBytes_ne_nil : ∀ l : List Nat, l ≠ [] → b64EncodeBytes l ≠ [] := by
  intro l hl
  match l with
  | [b1] => simp [b64EncodeBytes]
  | [b1, b2] => simp [b64EncodeBytes]
  | b1 :: b2 :: b3 :: rest => simp [b64EncodeBytes]

theorem b64_roundtrip_bytes :
    ∀ n l, l.length ≤ n → (∀ b ∈ l, b < 256) →
      b64DecodeChars (b64EncodeBytes l) = some l := by
  intro n
  induction n with
  | zero =>
    intro l hl _
    rw [List.length_eq_zero.mp (Nat.le_zero.mp hl)]
    rfl
  | succ n ih =>
    intro l hl hb
    match l with
    | [] => rfl
    | [b1] =>
      have hb1 : b1 < 256 := hb b1 (by simp)
      have h1 := b64Index_b64Char (b1 / 4) (by omega)
      have h2 := b64Index_b64Char (b1 % 4 * 16) (by omega)
      simp only [b64EncodeBytes, b64DecodeChars, b64DecodeLast, h1, h2, if_pos]
      simp only [Option.some.injEq, List.cons.injEq, and_true]
      omega
    | [b1, b2] =>
      have hb1 : b1 < 256 := hb b1 (by simp)
      have hb2 : b2 < 256 := hb b2 (by simp)
      have h1 := b64Index_b64Char (b1 / 4) (by omega)
      have h2 := b64Index_b64Char (b1 % 4 * 16 + b2 / 16) (by omega)
      have h3 := b64Index_b64Char (b2 % 16 * 4) (by omega)
      have hp := b64Char_ne_pad (b2 % 16 * 4) (by omega)
      simp only [b64EncodeBytes, b64DecodeChars, b64DecodeLast, h1, h2, h3, if_neg hp, if_pos]
      simp only [Option.some.injEq, List.cons.injEq, and_true]
      constructor
      · omega
      · omega
    | b1 :: b2 :: b3 :: rest =>
      have hb1 : b1 < 256 := hb b1 (by simp)
      have hb2 : b2 < 256 := hb b2 (by simp)
      have hb3 : b3 < 256 := hb b3 (by simp)
      have h1 := b64Index_b64Char (b1 / 4) (by omega)
      have h2 := b64Index_b64Char (b1 % 4 * 16 + b2 / 16) (by omega)
      have h3 := b64Index_b64Char (b2 % 16 * 4 + b3 / 64) (by omega)
      have h4 := b64Index_b64Char (b3 % 64) (by omega)
      cases hrest : rest with
      | nil =>
        have hp3 := b64Char_ne_pad (b2 % 16 * 4 + b3 / 64) (by omega)
        have hp4 := b64Char_ne_pad (b3 % 64) (by omega)
        simp only [b64EncodeBytes, b64DecodeChars, b64DecodeLast, h1, h2, h3, h4,
          if_neg hp3, if_neg hp4]
        simp only [Option.some.injEq, List.cons.injEq, and_true]
        omega
      | cons r rs =>
        have hne : rest ≠ [] := by rw [hrest]; simp
        have hihr := ih rest (by simp at hl; omega)
          (fun b hbm => hb b (by simp [hbm]))
        obtain ⟨e, es, her⟩ := List.exists_cons_of_ne_nil (b64EncodeBytes_ne_nil rest hne)
        rw [← hrest]
        simp only [b64EncodeBytes, her, b64DecodeChars, b64DecodeQuad, h1, h2, h3, h4]
        rw [her] at hihr
        simp only [hihr, Option.some.injEq]
        simp only [List.cons_append, List.nil_append, List.cons.injEq, and_true]
        omega

theorem b64_roundtrip_string (s : String) (h : ∀ c ∈ s.data, c.toNat < 256) :
    b64DecodeString (b64EncodeString s) = some s := by
  rw [b64EncodeString, b64DecodeString, data_mk]
  rw [b64_roundtrip_bytes (s.data.map Char.toNat).length _ le_rfl ?hbnd]
  case hbnd =>
    intro b hbm
    rw [List.mem_map] at hbm
    obtain ⟨c, hc, hcb⟩ := hbm
    rw [← hcb]
    exact h c hc
  rw [Option.map_some', List.map_map]
  have hpt : ∀ c ∈ s.data, (Char.ofNat ∘ Char.toNat) c = id c := fun c _ => Char.ofNat_toNat c
  rw [List.map_congr_left hpt, List.map_id]

/-- Environment entry row of the project database (`db.Env` in models.go);
the row kind ("env" or "file") is filtered by the database query. -/
structure Env where
  key : String
  value : String
  envType : String
  path : String
  isBase64 : Bool
deriving DecidableEq

/-- Keystore row of the project database (`db.Keystore` in models.go). -/
structure Keystore where
  keystoreFile : String
  storePassword : String
  keyAlias : String
  keyPassword : String
deriving DecidableEq

/-- Project row fields used by pod construction (`db.Project`). -/
structure Project where
  id : Nat
  gitRepo : String
  buildFolder : String
deriving DecidableEq

/-- Build configuration (`kubernetes.BuildConfig` in pod.go). -/
structure BuildConfig where
  buildID : Nat
  project : Project
  platform : String
  buildMode : String
  buildTarget : String
  flutterChannel : String
  gitBranch : String
  gitUsername : String
  gitPassword : String
deriving DecidableEq

/-- Composed ConfigMap object (name, labels and data of the `v1.ConfigMap`
literal of resources.go lines 65-75). -/
structure ConfigMapObj where
  name : String
  namespaceName : String
  labels : List (String × String)
  data : List (String × String)
deriving DecidableEq

/-- Composed Secret object (resources.go lines 107-125). -/
structure SecretObj where
  name : String
  namespaceName : String
  labels : List (String × String)
  binData : List (String × List Nat)
  stringData : List (String × String)
deriving DecidableEq

/-- Composed PersistentVolumeClaim object (resources.go lines 142-162). -/
structure PvcObj where
  name : String
  namespaceName : String
  labels : List (String × String)
  accessModes : List String
  storageClassName : String
  storageRequest : String
deriving DecidableEq

/-- Reference to one key of a named Secret (`v1.SecretKeySelector`). -/
structure SecretKeyRef where
  name : String
  key : String
deriving DecidableEq

/-- Container environment variable: a direct value, or an indirect reference
into a Secret (`v1.EnvVar` with optional `ValueFrom.SecretKeyRef`). -/
structure EnvVar where
  name : String
  value : String := ""
  valueFrom : Option SecretKeyRef := none
deriving DecidableEq

/-- Volume mount of the build container (`v1.VolumeMount`). -/
structure VolumeMount where
  name : String
  mountPath : String
  readOnly : Bool := false
deriving DecidableEq

/-- Volume source (`v1.VolumeSource`, the three variants used by pod.go). -/
inductive VolumeSource
  | persistentVolumeClaim (claimName : String)
  | configMap (name : String)
  | secret (secretName : String)
deriving DecidableEq

/-- Pod volume (`v1.Volume`). -/
structure Volume where
  name : String
  source : VolumeSource
deriving DecidableEq

/-- Composed build Pod (pod.go lines 176-209); the container image and the
fixed resource requests/limits are environment configuration not touched by
any claim and are not modelled. -/
structure PodObj where
  name : String
  namespaceName : String
  labels : List (String × String)
  restartPolicy : String
  env : List EnvVar
  volumeMounts : List VolumeMount
  volumes : List Volume
deriving DecidableEq

/-- Per-entry processing of `CreateConfigMapForEnvFiles` (resources.go lines
36-63): content is the base64-decoded value when `IsBase64` is set (a decode
failure is a hard error), the raw value otherwise; the data key encodes the
target path. -/
def processEnvFile (e : Env) : Except String (String × String) :=
  if e.isBase64 then
    match b64DecodeString e.value with
    | none => .error ("failed to decode base64 content for " ++ e.key)
    | some content => .ok (configMapFileName e.key e.path, content)
  else
    .ok (configMapFileName e.key e.path, e.value)

/-- Data-building loop of `CreateConfigMapForEnvFiles`: the first failing
entry aborts the whole construction. -/
def configMapDataOf : List Env → Except String (List (String × String))
  | [] => .ok []
  | e :: rest =>
    match processEnvFile e with
    | .error m => .error m
    | .ok kv =>
      match configMapDataOf rest with
      | .error m => .error m
      | .ok tl => .ok (kv :: tl)

/-- Embedding of `CreateConfigMapForEnvFiles` (resources.go lines 16-83): the
database handle is a boolean (nil check), the query result is passed in, and
the returned pair is the resource name plus the created object (none when
nothing is created). -/
def createConfigMapForEnvFiles (dbInitialized : Bool) (fetch : Except String (List Env))
    (buildID : Nat) (ns : String) : Except String (String × Option ConfigMapObj) :=
  if dbInitialized = false then .ok ("", none)
  else
    match fetch with
    | .error m => .error ("failed to fetch environment files: " ++ m)
    | .ok envs =>
      if envs = [] then .ok ("", none)
      else
        match configMapDataOf envs with
        | .error m => .error m
        | .ok data =>
          .ok (configMapName buildID,
            some { name := configMapName buildID, namespaceName := ns,
                   labels := [("app", "flotio-build"), ("build-id", itoa buildID)],
                   data := data })

/-- Embedding of `CreateSecretForKeystore` (resources.go lines 86-133): any
failure of the active-keystore query (absence included) yields an empty name
and no error; a keystore-blob base64 decode failure is a hard error. -/
def createSecretForKeystore (dbInitialized : Bool) (query : Except String Keystore)
    (buildID : Nat) (ns : String) : Except String (String × Option SecretObj) :=
  if dbInitialized = false then .ok ("", none)
  else
    match query with
    | .error _ => .ok ("", none)
    | .ok ks =>
      match b64DecodeChars ks.keystoreFile.data with
      | none => .error "failed to decode keystore file"
      | some bytes =>
        .ok (keystoreSecretName buildID,
          some { name := keystoreSecretName buildID, namespaceName := ns,
                 labels := [("app", "flotio-build"), ("build-id", itoa buildID)],
                 binData := [("keystore.jks", bytes)],
                 stringData := [("store-password", ks.storePassword),
                                ("key-alias", ks.keyAlias),
                                ("key-password", ks.keyPassword)] })

/-- Embedding of `CreatePersistentVolumeClaimForArtifacts` (resources.go lines
136-169): always composes the same PVC for a build. -/
def createPersistentVolumeClaimForArtifacts (buildID : Nat) (ns : String) : PvcObj :=
  { name := pvcName buildID, namespaceName := ns,
    labels := [("app", "flotio-build"), ("build-id", itoa buildID)],
    accessModes := ["ReadWriteOnce"], storageClassName := "standard",
    storageRequest := "5Gi" }

/-- Default build mode (pod.go lines 433-438): empty defaults to "release". -/
def getBuildMode (mode : String) : String := if mode = "" then "release" else mode

/-- Default build target (pod.go lines 440-455): an explicit non-empty target
is returned unchanged; otherwise the platform choses apk/ios/web, apk by
default. -/
def getBuildTarget (platform target : String) : String :=
  if target ≠ "" then target
  else if platform = "android" then "apk"
  else if platform = "ios" then "ios"
  else if platform = "web" then "web"
  else "apk"

/-- Default Flutter channel (pod.go lines 457-462): "" and "latest" become
"stable". -/
def getFlutterChannel (channel : String) : String :=
  if channel = "" ∨ channel = "latest" then "stable" else channel

/-- Fixed and git-conditional environment variables of the build container
(`buildEnvironmentVariables`, pod.go lines 221-248). -/
def buildEnvironmentVariables (config : BuildConfig) : List EnvVar :=
  [{ name := "GIT_REPO", value := config.project.gitRepo },
   { name := "BUILD_FOLDER", value := config.project.buildFolder },
   { name := "PLATFORM", value := config.platform },
   { name := "BUILD_ID", value := itoa config.buildID },
   { name := "BUILD_MODE", value := getBuildMode config.buildMode },
   { name := "BUILD_TARGET", value := getBuildTarget config.platform config.buildTarget },
   { name := "FLUTTER_CHANNEL", value := getFlutterChannel config.flutterChannel },
   { name := "OUTPUT_DIR", value := "/outputs" },
   { name := "ENV_FILES_DIR", value := "/env-files" }]
  ++ (if config.gitBranch ≠ "" then [{ name := "GIT_BRANCH", value := config.gitBranch }] else [])
  ++ (if config.gitUsername ≠ "" then [{ name := "GIT_USERNAME", value := config.gitUsername }] else [])
  ++ (if config.gitPassword ≠ "" then [{ name := "GIT_PASSWORD", value := config.gitPassword }] else [])

/-- Rows used from the type="env" database fetch of pod.go lines 69-77: a
fetch error silently yields no rows. -/
def dbEnvsOfFetch (ve : Except String (List Env)) : List Env :=
  match ve with
  | .ok l => l
  | .error _ => []

/-- Database-sourced variable entries appended verbatim after the composed
variables (pod.go lines 66-77; a fetch error silently skips the append). -/
def composedEnvVars (config : BuildConfig) (dbEnvs : List Env) : List EnvVar :=
  buildEnvironmentVariables config ++ dbEnvs.map fun e => { name := e.key, value := e.value }

/-- Keystore environment variables appended when a Secret exists (pod.go lines
104-134): KEYSTORE_PATH is a direct constant, the other three are indirect
references to Secret fields. -/
def keystoreEnvVars (secretName : String) : List EnvVar :=
  [{ name := "KEYSTORE_PATH", value := "/keystore/keystore.jks" },
   { name := "KEYSTORE_PASSWORD", valueFrom := some { name := secretName, key := "store-password" } },
   { name := "KEY_ALIAS", valueFrom := some { name := secretName, key := "key-alias" } },
   { name := "KEY_PASSWORD", valueFrom := some { name := secretName, key := "key-password" } }]

/-- Result of one `CreateBuildPod` run: the four resources it composed (none
for the optional ones that were skipped). -/
structure BuildOutput where
  pvc : PvcObj
  configMap : Option ConfigMapObj
  secret : Option SecretObj
  pod : PodObj
deriving DecidableEq

/-- Embedding of `CreateBuildPod` (pod.go lines 30-218): provisions PVC,
ConfigMap (conditionally), Secret (android only), composes environment,
mounts and volumes, and assembles the Pod. Cluster client resolution and the
cluster create calls are external effects; the three database interactions
are passed in as query results. -/
def createBuildPod (config : BuildConfig) (dbInitialized : Bool)
    (fileEnvFetch : Except String (List Env)) (keystoreQuery : Except String Keystore)
    (varEnvFetch : Except String (List Env)) (ns : String) : Except String BuildOutput :=
  let pvc := createPersistentVolumeClaimForArtifacts config.buildID ns
  match createConfigMapForEnvFiles dbInitialized fileEnvFetch config.buildID ns with
  | .error m => .error ("failed to create ConfigMap: " ++ m)
  | .ok (cmName, cmObj) =>
    match (if config.platform = "android" then
             createSecretForKeystore dbInitialized keystoreQuery config.buildID ns
           else .ok ("", none)) with
    | .error m => .error ("failed to create Secret: " ++ m)
    | .ok (secName, secObj) =>
      let envVars := composedEnvVars config (dbEnvsOfFetch varEnvFetch) ++
        (if secName ≠ "" then keystoreEnvVars secName else [])
      let volumeMounts := [{ name := "artifacts", mountPath := "/outputs" : VolumeMount }] ++
        (if cmName ≠ "" then [{ name := "env-files", mountPath := "/env-files", readOnly := true : VolumeMount }] else []) ++
        (if secName ≠ "" then [{ name := "keystore", mountPath := "/keystore", readOnly := true : VolumeMount }] else [])
      let volumes := [{ name := "artifacts", source := VolumeSource.persistentVolumeClaim pvc.name : Volume }] ++
        (if cmName ≠ "" then [{ name := "env-files", source := VolumeSource.configMap cmName : Volume }] else []) ++
        (if secName ≠ "" then [{ name := "keystore", source := VolumeSource.secret secName : Volume }] else [])
      .ok { pvc := pvc, configMap := cmObj, secret := secObj,
            pod := { name := podName config.buildID, namespaceName := ns,
                     labels := [("app", "flotio-build"),
                                ("build-id", itoa config.buildID),
                                ("project-id", itoa config.project.id),
                                ("platform", config.platform)],
                     restartPolicy := "Never",
                     env := envVars, volumeMounts := volumeMounts, volumes := volumes } }

/-- Outcome of the four cluster delete calls of `DeleteBuildResources`:
some message models a failed deletion (a "not found" included), none a
successful one. -/
structure DeleteOutcomes where
  pod : Option String
  configMap : Option String
  secret : Option String
  pvc : Option String
deriving DecidableEq

/-- Report of one `DeleteBuildResources` run: which deletions were attempted,
the warnings printed, and the returned error value. -/
structure DeleteReport where
  attempted : List String
  warnings : List String
  result : Except String Unit

/-- Embedding of `DeleteBuildResources` (resources.go lines 173-209): each of
the four deletions is attempted in order regardless of earlier outcomes; a
failure only produces a warning; the function always returns nil. -/
def deleteBuildResources (outcomes : DeleteOutcomes) (buildID : Nat) : DeleteReport :=
  let w1 := match outcomes.pod with
    | some m => ["Warning: failed to delete pod " ++ podName buildID ++ ": " ++ m]
    | none => []
  let w2 := match outcomes.configMap with
    | some m => ["Warning: failed to delete ConfigMap " ++ configMapName buildID ++ ": " ++ m]
    | none => []
  let w3 := match outcomes.secret with
    | some m => ["Warning: failed to delete Secret " ++ keystoreSecretName buildID ++ ": " ++ m]
    | none => []
  let w4 := match outcomes.pvc with
    | some m => ["Warning: failed to delete PVC " ++ pvcName buildID ++ ": " ++ m]
    | none => []
  { attempted := [podName buildID, configMapName buildID,
                  keystoreSecretName buildID, pvcName buildID],
    warnings := w1 ++ w2 ++ w3 ++ w4,
    result := .ok () }

theorem configMapName_ne_empty (id : Nat) : configMapName id ≠ "" := by
  intro h
  have hd := congrArg String.data h
  rw [configMapName_data] at hd
  have hb : "build-".data = ['b', 'u', 'i', 'l', 'd', '-'] := rfl
  rw [hb] at hd
  simp at hd

theorem keystoreSecretName_ne_empty (id : Nat) : keystoreSecretName id ≠ "" := by
  intro h
  have hd := congrArg String.data h
  rw [keystoreSecretName_data] at hd
  have hb : "build-".data = ['b', 'u', 'i', 'l', 'd', '-'] := rfl
  rw [hb] at hd
  simp at hd

theorem createBuildPod_inv (config : BuildConfig) (dbI : Bool)
    (fe : Except String (List Env)) (q : Except String Keystore)
    (ve : Except String (List Env)) (ns : String) (out : BuildOutput)
    (h : createBuildPod config dbI fe q ve ns = .ok out) :
    ∃ cmName cmObj secName secObj,
      createConfigMapForEnvFiles dbI fe config.buildID ns = .ok (cmName, cmObj) ∧
      (if config.platform = "android" then
         createSecretForKeystore dbI q config.buildID ns
       else .ok ("", none)) = .ok (secName, secObj) ∧
      out = { pvc := createPersistentVolumeClaimForArtifacts config.buildID ns,
              configMap := cmObj, secret := secObj,
              pod := { name := podName config.buildID, namespaceName := ns,
                       labels := [("app", "flotio-build"),
                                  ("build-id", itoa config.buildID),
                                  ("project-id", itoa config.project.id),
                                  ("platform", config.platform)],
                       restartPolicy := "Never",
                       env := composedEnvVars config (dbEnvsOfFetch ve) ++
                         (if secName ≠ "" then keystoreEnvVars secName else []),
                       volumeMounts :=
                         [{ name := "artifacts", mountPath := "/outputs" }] ++
                         (if cmName ≠ "" then
                            [{ name := "env-files", mountPath := "/env-files", readOnly := true }]
                          else []) ++
                         (if secName ≠ "" then
                            [{ name := "keystore", mountPath := "/keystore", readOnly := true }]
                          else []),
                       volumes :=
                         [{ name := "artifacts",
                            source := VolumeSource.persistentVolumeClaim
                              (createPersistentVolumeClaimForArtifacts config.buildID ns).name }] ++
                         (if cmName ≠ "" then
                            [{ name := "env-files", source := VolumeSource.configMap cmName }]
                          else []) ++
                         (if secName ≠ "" then
                            [{ name := "keystore", source := VolumeSource.secret secName }]
                          else []) } } := by
  unfold createBuildPod at h
  cases hcm : createConfigMapForEnvFiles dbI fe config.buildID ns with
  | error m =>
    rw [hcm] at h
    simp at h
  | ok p =>
    obtain ⟨cmName, cmObj⟩ := p
    rw [hcm] at h
    cases hsec : (if config.platform = "android" then
        createSecretForKeystore dbI q config.buildID ns
      else .ok ("", none)) with
    | error m =>
      rw [hsec] at h
      simp at h
    | ok p2 =>
      obtain ⟨secName, secObj⟩ := p2
      rw [hsec] at h
      simp only [Except.ok.injEq] at h
      exact ⟨cmName, cmObj, secName, secObj, rfl, rfl, h.symm⟩

theorem createBuildPod_run (config : BuildConfig) (dbI : Bool)
    (fe : Except String (List Env)) (q : Except String Keystore)
    (ve : Except String (List Env)) (ns : String)
    (cmName : String) (cmObj : Option ConfigMapObj)
    (secName : String) (secObj : Option SecretObj)
    (hcm : createConfigMapForEnvFiles dbI fe config.buildID ns = .ok (cmName, cmObj))
    (hsec : (if config.platform = "android" then
               createSecretForKeystore dbI q config.buildID ns
             else .ok ("", none)) = .ok (secName, secObj)) :
    createBuildPod config dbI fe q ve ns =
      .ok { pvc := createPersistentVolumeClaimForArtifacts config.buildID ns,
            configMap := cmObj, secret := secObj,
            pod := { name := podName config.buildID, namespaceName := ns,
                     labels := [("app", "flotio-build"),
                                ("build-id", itoa config.buildID),
                                ("project-id", itoa config.project.id),
                                ("platform", config.platform)],
                     restartPolicy := "Never",
                     env := composedEnvVars config (dbEnvsOfFetch ve) ++
                       (if secName ≠ "" then keystoreEnvVars secName else []),
                     volumeMounts :=
                       [{ name := "artifacts", mountPath := "/outputs" }] ++
                       (if cmName ≠ "" then
                          [{ name := "env-files", mountPath := "/env-files", readOnly := true }]
                        else []) ++
                       (if secName ≠ "" then
                          [{ name := "keystore", mountPath := "/keystore", readOnly := true }]
                        else []),
                     volumes :=
                       [{ name := "artifacts",
                          source := VolumeSource.persistentVolumeClaim
                            (createPersistentVolumeClaimForArtifacts config.buildID ns).name }] ++
                       (if cmName ≠ "" then
                          [{ name := "env-files", source := VolumeSource.configMap cmName }]
                        else []) ++
                       (if secName ≠ "" then
                          [{ name := "keystore", source := VolumeSource.secret secName }]
                        else []) } } := by
  unfold createBuildPod
  simp only [hcm, hsec]

/-- Sample keystore row: "e30=" is the base64 encoding of the two bytes 123
and 125. -/
def sampleKeystore : Keystore :=
  { keystoreFile := "e30=", storePassword := "sp", keyAlias := "ka", keyPassword := "kp" }

/-- Sample build configuration with BuildID 0 for concrete runs. -/
def sampleConfig (platform : String) : BuildConfig :=
  { buildID := 0,
    project := { id := 0, gitRepo := "https://example.test/repo.git", buildFolder := "." },
    platform := platform, buildMode := "", buildTarget := "", flutterChannel := "",
    gitBranch := "", gitUsername := "", gitPassword := "" }

/-- Sample file entry of the spec scenario. -/
def sampleFileEnv : Env :=
  { key := "gs", value := "e30=", envType := "file",
    path := "android/app/g.json", isBase64 := true }

/-- The Secret composed for `sampleKeystore` at BuildID 0. -/
def sampleSecretObj : SecretObj :=
  { name := keystoreSecretName 0, namespaceName := "default",
    labels := [("app", "flotio-build"), ("build-id", itoa 0)],
    binData := [("keystore.jks", [123, 125])],
    stringData := [("store-password", "sp"), ("key-alias", "ka"), ("key-password", "kp")] }

/-- The ConfigMap composed for `sampleFileEnv` at BuildID 0. -/
def sampleCmObj : ConfigMapObj :=
  { name := configMapName 0, namespaceName := "default",
    labels := [("app", "flotio-build"), ("build-id", itoa 0)],
    data := [("gs::android__app__g.json", "\x7b\x7d")] }

/-- Build output of an android run with `sampleKeystore` and no file entries. -/
def sampleOutAndroid : BuildOutput :=
  { pvc := createPersistentVolumeClaimForArtifacts 0 "default",
    configMap := none,
    secret := some sampleSecretObj,
    pod := { name := podName 0, namespaceName := "default",
             labels := [("app", "flotio-build"), ("build-id", itoa 0),
                        ("project-id", itoa 0), ("platform", "android")],
             restartPolicy := "Never",
             env := composedEnvVars (sampleConfig "android") [] ++
               keystoreEnvVars (keystoreSecretName 0),
             volumeMounts := [{ name := "artifacts", mountPath := "/outputs" },
                              { name := "keystore", mountPath := "/keystore", readOnly := true }],
             volumes := [{ name := "artifacts",
                           source := VolumeSource.persistentVolumeClaim (pvcName 0) },
                         { name := "keystore",
                           source := VolumeSource.secret (keystoreSecretName 0) }] } }

/-- Build output of a web run with the same keystore row available. -/
def sampleOutWeb : BuildOutput :=
  { pvc := createPersistentVolumeClaimForArtifacts 0 "default",
    configMap := none,
    secret := none,
    pod := { name := podName 0, namespaceName := "default",
             labels := [("app", "flotio-build"), ("build-id", itoa 0),
                        ("project-id", itoa 0), ("platform", "web")],
             restartPolicy := "Never",
             env := composedEnvVars (sampleConfig "web") [],
             volumeMounts := [{ name := "artifacts", mountPath := "/outputs" }],
             volumes := [{ name := "artifacts",
                           source := VolumeSource.persistentVolumeClaim (pvcName 0) }] } }

/-- C5 fails as stated: for Platform "ios" an explicit BuildTarget is not
overridden; BUILD_TARGET is the explicit value, not "ios". -/
theorem c5_claim_counterexample : getBuildTarget "ios" "apk" ≠ "ios" := by decide

/-- C5 (amended): Platform "android" with empty BuildTarget yields "apk";
Platform "ios" yields "ios" only when the explicit BuildTarget is empty,
an explicit non-empty BuildTarget being returned unchanged; FlutterChannel
"" or "latest" yields "stable". -/
theorem c5_env_defaults_amended :
    getBuildTarget "android" "" = "apk" ∧
    getBuildTarget "ios" "" = "ios" ∧
    (∀ t : String, t ≠ "" → getBuildTarget "ios" t = t) ∧
    getFlutterChannel "" = "stable" ∧
    getFlutterChannel "latest" = "stable" := by
  refine ⟨by decide, by decide, ?_, by decide, by decide⟩
  intro t ht
  rw [getBuildTarget, if_pos ht]

/-- Witness for C5 at the concrete explicit target "aab". -/
theorem c5_env_defaults_amended_witness : getBuildTarget "ios" "aab" = "aab" :=
  c5_env_defaults_amended.2.2.1 "aab" (by decide)

/-- C8: deletion attempts all four resources by deterministic name whatever
the individual outcomes are, records failures only as warnings, and always
returns without an error; in particular it succeeds when none of the four
objects exists. -/
theorem c8_delete_best_effort (outcomes : DeleteOutcomes) (id : Nat) :
    (deleteBuildResources outcomes id).attempted =
      [podName id, configMapName id, keystoreSecretName id, pvcName id] ∧
    (deleteBuildResources outcomes id).result = .ok () ∧
    (∀ m, outcomes.pod = some m →
      ("Warning: failed to delete pod " ++ podName id ++ ": " ++ m) ∈
        (deleteBuildResources outcomes id).warnings) ∧
    (∀ m, outcomes.configMap = some m →
      ("Warning: failed to delete ConfigMap " ++ configMapName id ++ ": " ++ m) ∈
        (deleteBuildResources outcomes id).warnings) ∧
    (∀ m, outcomes.secret = some m →
      ("Warning: failed to delete Secret " ++ keystoreSecretName id ++ ": " ++ m) ∈
        (deleteBuildResources outcomes id).warnings) ∧
    (∀ m, outcomes.pvc = some m →
      ("Warning: failed to delete PVC " ++ pvcName id ++ ": " ++ m) ∈
        (deleteBuildResources outcomes id).warnings) := by
  refine ⟨rfl, rfl, ?_, ?_, ?_, ?_⟩ <;>
    intro m hm <;> simp [deleteBuildResources, hm]

/-- Witness for C8: a build none of whose four objects exists (all four
deletions fail with "not found") still deletes without error. -/
theorem c8_delete_best_effort_witness :
    (deleteBuildResources
      { pod := some "not found", configMap := some "not found",
        secret := some "not found", pvc := some "not found" } 0).attempted =
      [podName 0, configMapName 0, keystoreSecretName 0, pvcName 0] ∧
    (deleteBuildResources
      { pod := some "not found", configMap := some "not found",
        secret := some "not found", pvc := some "not found" } 0).result = .ok () ∧
    ("Warning: failed to delete pod " ++ podName 0 ++ ": " ++ "not found") ∈
      (deleteBuildResources
        { pod := some "not found", configMap := some "not found",
          secret := some "not found", pvc := some "not found" } 0).warnings := by
  have h := c8_delete_best_effort
    { pod := some "not found", configMap := some "not found",
      secret := some "not found", pvc := some "not found" } 0
  exact ⟨h.1, h.2.1, h.2.2.1 "not found" rfl⟩

theorem configMapDataOf_error_of_mem :
    ∀ (envs : List Env) (e : Env), e ∈ envs → e.isBase64 = true →
      b64DecodeString e.value = none →
      ∃ m, configMapDataOf envs = .error m := by
  intro envs
  induction envs with
  | nil =>
    intro e he
    simp at he
  | cons a rest ih =>
    intro e he hb hd
    rcases List.mem_cons.mp he with heq | hmem
    · subst heq
      refine ⟨"failed to decode base64 content for " ++ e.key, ?_⟩
      have hpe : processEnvFile e = .error ("failed to decode base64 content for " ++ e.key) := by
        rw [processEnvFile, if_pos hb, hd]
      rw [configMapDataOf, hpe]
    · cases hpa : processEnvFile a with
      | error ma => exact ⟨ma, by rw [configMapDataOf, hpa]⟩
      | ok kv =>
        obtain ⟨m, hm⟩ := ih e hmem hb hd
        exact ⟨m, by rw [configMapDataOf, hpa, hm]⟩

/-- C3: for file entries, an IsBase64 value that is the base64 encoding of
some content is stored as exactly that content; a base64 decode failure is a
hard error failing the whole ConfigMap creation; an IsBase64=false value is
stored verbatim; and the concrete entry of the spec yields data key
"gs::android__app__g.json" with value "{}" (the two bytes 123, 125). -/
theorem c3_base64_file_entries :
    (∀ (e : Env) (content : String), e.isBase64 = true →
        (∀ c ∈ content.data, c.toNat < 256) →
        e.value = b64EncodeString content →
        processEnvFile e = .ok (configMapFileName e.key e.path, content)) ∧
    (∀ e : Env, e.isBase64 = false →
        processEnvFile e = .ok (configMapFileName e.key e.path, e.value)) ∧
    (∀ (envs : List Env) (e : Env) (id : Nat) (ns : String), e ∈ envs →
        e.isBase64 = true → b64DecodeString e.value = none →
        ∃ m, createConfigMapForEnvFiles true (.ok envs) id ns = .error m) ∧
    (∀ (id : Nat) (ns : String),
        createConfigMapForEnvFiles true (.ok [sampleFileEnv]) id ns =
        .ok (configMapName id,
          some { name := configMapName id, namespaceName := ns,
                 labels := [("app", "flotio-build"), ("build-id", itoa id)],
                 data := [("gs::android__app__g.json", "\x7b\x7d")] })) := by
  refine ⟨?_, ?_, ?_, ?_⟩
  · intro e content hb hc hv
    rw [processEnvFile, if_pos hb, hv, b64_roundtrip_string content hc]
  · intro e hb
    rw [processEnvFile, if_neg]
    rw [hb]
    simp
  · intro envs e id ns he hb hd
    have hne : envs ≠ [] := List.ne_nil_of_mem he
    obtain ⟨m, hm⟩ := configMapDataOf_error_of_mem envs e he hb hd
    refine ⟨m, ?_⟩
    rw [createConfigMapForEnvFiles]
    simp only [Bool.true_eq_false, if_false]
    rw [if_neg hne, hm]
  · intro id ns
    have hdec : b64DecodeString "e30=" = some "\x7b\x7d" := by decide
    have hkey : configMapFileName "gs" "android/app/g.json" = "gs::android__app__g.json" := by
      decide
    rw [createConfigMapForEnvFiles]
    simp only [Bool.true_eq_false, if_false]
    rw [if_neg (by simp : ¬([sampleFileEnv] = []))]
    have hdata : configMapDataOf [sampleFileEnv] =
        .ok [("gs::android__app__g.json", "\x7b\x7d")] := by
      rw [configMapDataOf]
      have hpe : processEnvFile sampleFileEnv =
          .ok ("gs::android__app__g.json", "\x7b\x7d") := by
        rw [processEnvFile, if_pos (show sampleFileEnv.isBase64 = true from rfl),
          show sampleFileEnv.value = "e30=" from rfl, hdec,
          show sampleFileEnv.key = "gs" from rfl,
          show sampleFileEnv.path = "android/app/g.json" from rfl, hkey]
      rw [hpe, configMapDataOf]
    rw [hdata]

/-- Witness for C3 at concrete entries. -/
theorem c3_base64_file_entries_witness :
    processEnvFile sampleFileEnv = .ok (configMapFileName "gs" "android/app/g.json", "\x7b\x7d") ∧
    processEnvFile { key := "k", value := "v", envType := "file", path := "", isBase64 := false } =
      .ok (configMapFileName "k" "", "v") ∧
    (createConfigMapForEnvFiles true
      (.ok [{ key := "bad", value := "!!", envType := "file", path := "", isBase64 := true }])
      0 "default").isOk = false := by
  refine ⟨?_, ?_, ?_⟩
  · exact c3_base64_file_entries.1 sampleFileEnv "\x7b\x7d" rfl (by decide) (by decide)
  · exact c3_base64_file_entries.2.1 _ rfl
  · obtain ⟨m, hm⟩ := c3_base64_file_entries.2.2.1
      [{ key := "bad", value := "!!", envType := "file", path := "", isBase64 := true }]
      { key := "bad", value := "!!", envType := "file", path := "", isBase64 := true }
      0 "default" (by simp) rfl (by decide)
    rw [hm]
    rfl

/-- C6: the composed environment always contains the nine fixed variables
(BUILD_MODE defaulted to "release" when empty); GIT_BRANCH, GIT_USERNAME and
GIT_PASSWORD are emitted if and only if the corresponding field is non-empty;
database-sourced entries are appended verbatim after the fixed ones, with no
deduplication of repeated names. -/
theorem c6_env_composition (config : BuildConfig) (dbEnvs : List Env) :
    ({ name := "GIT_REPO", value := config.project.gitRepo : EnvVar } ∈
        buildEnvironmentVariables config ∧
     { name := "BUILD_FOLDER", value := config.project.buildFolder : EnvVar } ∈
        buildEnvironmentVariables config ∧
     { name := "PLATFORM", value := config.platform : EnvVar } ∈
        buildEnvironmentVariables config ∧
     { name := "BUILD_ID", value := itoa config.buildID : EnvVar } ∈
        buildEnvironmentVariables config ∧
     { name := "BUILD_MODE",
       value := if config.buildMode = "" then "release" else config.buildMode : EnvVar } ∈
        buildEnvironmentVariables config ∧
     { name := "BUILD_TARGET",
       value := getBuildTarget config.platform config.buildTarget : EnvVar } ∈
        buildEnvironmentVariables config ∧
     { name := "FLUTTER_CHANNEL",
       value := getFlutterChannel config.flutterChannel : EnvVar } ∈
        buildEnvironmentVariables config ∧
     { name := "OUTPUT_DIR", value := "/outputs" : EnvVar } ∈
        buildEnvironmentVariables config ∧
     { name := "ENV_FILES_DIR", value := "/env-files" : EnvVar } ∈
        buildEnvironmentVariables config) ∧
    (({ name := "GIT_BRANCH", value := config.gitBranch : EnvVar } ∈
        buildEnvironmentVariables config ↔ config.gitBranch ≠ "") ∧
     ({ name := "GIT_USERNAME", value := config.gitUsername : EnvVar } ∈
        buildEnvironmentVariables config ↔ config.gitUsername ≠ "") ∧
     ({ name := "GIT_PASSWORD", value := config.gitPassword : EnvVar } ∈
        buildEnvironmentVariables config ↔ config.gitPassword ≠ "")) ∧
    composedEnvVars config dbEnvs =
      buildEnvironmentVariables config ++
        dbEnvs.map (fun e => { name := e.key, value := e.value }) ∧
    (∀ nm : String,
      (composedEnvVars config dbEnvs).countP (fun v => v.name == nm) =
        (buildEnvironmentVariables config).countP (fun v => v.name == nm) +
        (dbEnvs.map (fun e : Env => { name := e.key, value := e.value : EnvVar })).countP
          (fun v => v.name == nm)) := by
  refine ⟨⟨?_, ?_, ?_, ?_, ?_, ?_, ?_, ?_, ?_⟩, ⟨?_, ?_, ?_⟩, rfl, ?_⟩
  · simp [buildEnvironmentVariables]
  · simp [buildEnvironmentVariables]
  · simp [buildEnvironmentVariables]
  · simp [buildEnvironmentVariables]
  · simp [buildEnvironmentVariables, getBuildMode]
  · simp [buildEnvironmentVariables]
  · simp [buildEnvironmentVariables]
  · simp [buildEnvironmentVariables]
  · simp [buildEnvironmentVariables]
  · constructor
    · intro hmem heq
      by_cases hu : config.gitUsername = "" <;> by_cases hp : config.gitPassword = "" <;>
        simp [buildEnvironmentVariables, heq, hu, hp] at hmem
    · intro hgb
      simp [buildEnvironmentVariables, hgb]
  · constructor
    · intro hmem heq
      by_cases hb : config.gitBranch = "" <;> by_cases hp : config.gitPassword = "" <;>
        simp [buildEnvironmentVariables, heq, hb, hp] at hmem
    · intro hgu
      simp [buildEnvironmentVariables, hgu]
  · constructor
    · intro hmem heq
      by_cases hb : config.gitBranch = "" <;> by_cases hu : config.gitUsername = "" <;>
        simp [buildEnvironmentVariables, heq, hb, hu] at hmem
    · intro hgp
      simp [buildEnvironmentVariables, hgp]
  · intro nm
    rw [composedEnvVars, List.countP_append]

/-- Witness for C6 at a concrete configuration with a duplicated name. -/
theorem c6_env_composition_witness :
    { name := "GIT_BRANCH", value := "main" : EnvVar } ∈
      buildEnvironmentVariables
        { buildID := 0,
          project := { id := 0, gitRepo := "r", buildFolder := "." },
          platform := "android", buildMode := "", buildTarget := "",
          flutterChannel := "", gitBranch := "main", gitUsername := "", gitPassword := "" } ∧
    (composedEnvVars (sampleConfig "android")
        [{ key := "PLATFORM", value := "override", envType := "env", path := "", isBase64 := false }]).countP
      (fun v => v.name == "PLATFORM") = 2 := by
  constructor
  · exact (c6_env_composition
      { buildID := 0,
        project := { id := 0, gitRepo := "r", buildFolder := "." },
        platform := "android", buildMode := "", buildTarget := "",
        flutterChannel := "", gitBranch := "main", gitUsername := "", gitPassword := "" }
      []).2.1.1.mpr (by decide)
  · have h := (c6_env_composition (sampleConfig "android")
      [{ key := "PLATFORM", value := "override", envType := "env", path := "", isBase64 := false }]).2.2.2
      "PLATFORM"
    rw [h]
    decide

theorem createBuildPod_no_keystore_of_query_error
    (config : BuildConfig) (fe ve : Except String (List Env)) (ns err : String)
    (cmName : String) (cmObj : Option ConfigMapObj)
    (hplat : config.platform = "android")
    (hcm : createConfigMapForEnvFiles true fe config.buildID ns = .ok (cmName, cmObj)) :
    ∃ out, createBuildPod config true fe (.error err) ve ns = .ok out ∧
      out.secret = none ∧
      (∀ vm ∈ out.pod.volumeMounts, vm.name ≠ "keystore") ∧
      out.pod.env = composedEnvVars config (dbEnvsOfFetch ve) := by
  have hsec : (if config.platform = "android" then
      createSecretForKeystore true (.error err) config.buildID ns
    else .ok ("", none)) = .ok ("", none) := by
    rw [hplat, if_pos rfl]
    rfl
  refine ⟨_, createBuildPod_run config true fe (.error err) ve ns cmName cmObj "" none
    hcm hsec, rfl, ?_, ?_⟩
  · intro vm hvm
    simp only [ne_eq, not_true_eq_false, if_false, List.append_nil] at hvm
    by_cases hc : cmName = ""
    · simp [hc] at hvm
      rw [hvm]
      decide
    · simp [hc] at hvm
      rcases hvm with h | h <;> rw [h] <;> decide
  · simp

/-- C7: optional-feature absence is never an error: no file entries, an
uninitialized data source, or no active keystore row each yield an empty
resource name and a nil error with no resource created; and an android
StartBuild whose keystore query fails still succeeds, with no Secret, no
keystore mount, and no keystore environment entries. -/
theorem c7_optional_absence_not_error :
    (∀ (id : Nat) (ns : String),
        createConfigMapForEnvFiles true (.ok []) id ns = .ok ("", none)) ∧
    (∀ (fe : Except String (List Env)) (id : Nat) (ns : String),
        createConfigMapForEnvFiles false fe id ns = .ok ("", none)) ∧
    (∀ (q : Except String Keystore) (id : Nat) (ns : String),
        createSecretForKeystore false q id ns = .ok ("", none)) ∧
    (∀ (err : String) (id : Nat) (ns : String),
        createSecretForKeystore true (.error err) id ns = .ok ("", none)) ∧
    (∀ (config : BuildConfig) (fe ve : Except String (List Env)) (ns err : String)
        (cmName : String) (cmObj : Option ConfigMapObj),
        config.platform = "android" →
        createConfigMapForEnvFiles true fe config.buildID ns = .ok (cmName, cmObj) →
        ∃ out, createBuildPod config true fe (.error err) ve ns = .ok out ∧
          out.secret = none ∧
          (∀ vm ∈ out.pod.volumeMounts, vm.name ≠ "keystore") ∧
          out.pod.env = composedEnvVars config (dbEnvsOfFetch ve)) := by
  refine ⟨?_, ?_, ?_, ?_, ?_⟩
  · intro id ns
    rfl
  · intro fe id ns
    rfl
  · intro q id ns
    rfl
  · intro err id ns
    rfl
  · intro config fe ve ns err cmName cmObj hplat hcm
    exact createBuildPod_no_keystore_of_query_error config fe ve ns err cmName cmObj hplat hcm

/-- Witness for C7 at concrete inputs: empty file list, uninitialized data
source, absent keystore, and a full android StartBuild without a keystore. -/
theorem c7_optional_absence_not_error_witness :
    createConfigMapForEnvFiles true (.ok []) 0 "default" = .ok ("", none) ∧
    createConfigMapForEnvFiles false (.ok [sampleFileEnv]) 0 "default" = .ok ("", none) ∧
    createSecretForKeystore false (.ok sampleKeystore) 0 "default" = .ok ("", none) ∧
    createSecretForKeystore true (.error "record not found") 0 "default" = .ok ("", none) ∧
    (createBuildPod (sampleConfig "android") true (.ok []) (.error "record not found")
      (.ok []) "default").isOk = true := by
  refine ⟨c7_optional_absence_not_error.1 0 "default",
    c7_optional_absence_not_error.2.1 (.ok [sampleFileEnv]) 0 "default",
    c7_optional_absence_not_error.2.2.1 (.ok sampleKeystore) 0 "default",
    c7_optional_absence_not_error.2.2.2.1 "record not found" 0 "default", ?_⟩
  obtain ⟨out, hrun, _⟩ := c7_optional_absence_not_error.2.2.2.2
    (sampleConfig "android") (.ok []) (.ok []) "default" "record not found" "" none rfl rfl
  rw [hrun]
  rfl

/-- C10 (implicit): every failure of the active-keystore query, not only
record absence, makes CreateSecretForKeystore return an empty name and a nil
error; consequently an android StartBuild during a database outage proceeds
with no Secret, no keystore mount and no keystore environment variables
instead of reporting an error. -/
theorem c10_db_outage_silently_unsigned :
    (∀ (err : String) (id : Nat) (ns : String),
        createSecretForKeystore true (.error err) id ns = .ok ("", none)) ∧
    (∀ (config : BuildConfig) (fe ve : Except String (List Env)) (ns err : String)
        (cmName : String) (cmObj : Option ConfigMapObj),
        config.platform = "android" →
        createConfigMapForEnvFiles true fe config.buildID ns = .ok (cmName, cmObj) →
        ∃ out, createBuildPod config true fe (.error err) ve ns = .ok out ∧
          out.secret = none ∧
          (∀ vm ∈ out.pod.volumeMounts, vm.name ≠ "keystore") ∧
          out.pod.env = composedEnvVars config (dbEnvsOfFetch ve)) := by
  refine ⟨?_, ?_⟩
  · intro err id ns
    rfl
  · intro config fe ve ns err cmName cmObj hplat hcm
    exact createBuildPod_no_keystore_of_query_error config fe ve ns err cmName cmObj hplat hcm

/-- Witness for C10 at a concrete database-outage error. -/
theorem c10_db_outage_silently_unsigned_witness :
    createSecretForKeystore true (.error "connection refused") 0 "default" = .ok ("", none) ∧
    (createBuildPod (sampleConfig "android") true (.ok []) (.error "connection refused")
      (.ok []) "default").isOk = true := by
  refine ⟨c10_db_outage_silently_unsigned.1 "connection refused" 0 "default", ?_⟩
  obtain ⟨out, hrun, _⟩ := c10_db_outage_silently_unsigned.2
    (sampleConfig "android") (.ok []) (.ok []) "default" "connection refused" "" none rfl rfl
  rw [hrun]
  rfl

/-- C4: with an active keystore row, an android build creates the Secret, the
Pod carries a read-only keystore mount, a direct KEYSTORE_PATH constant, and
KEYSTORE_PASSWORD, KEY_ALIAS, KEY_PASSWORD as indirect Secret references; a
web build with the same keystore row creates no Secret, has no keystore mount,
and its environment has no keystore entries appended. -/
theorem c4_keystore_android_vs_web :
    (∀ (config : BuildConfig) (fe ve : Except String (List Env))
        (q : Except String Keystore) (ns : String) (ks : Keystore) (out : BuildOutput),
      config.platform = "android" → q = .ok ks →
      createBuildPod config true fe q ve ns = .ok out →
      out.secret.isSome = true ∧
      { name := "keystore", mountPath := "/keystore", readOnly := true : VolumeMount } ∈
        out.pod.volumeMounts ∧
      { name := "KEYSTORE_PATH", value := "/keystore/keystore.jks" : EnvVar } ∈ out.pod.env ∧
      { name := "KEYSTORE_PASSWORD",
        valueFrom := some { name := keystoreSecretName config.buildID,
                            key := "store-password" } : EnvVar } ∈ out.pod.env ∧
      { name := "KEY_ALIAS",
        valueFrom := some { name := keystoreSecretName config.buildID,
                            key := "key-alias" } : EnvVar } ∈ out.pod.env ∧
      { name := "KEY_PASSWORD",
        valueFrom := some { name := keystoreSecretName config.buildID,
                            key := "key-password" } : EnvVar } ∈ out.pod.env) ∧
    (∀ (config : BuildConfig) (dbI : Bool) (fe ve : Except String (List Env))
        (q : Except String Keystore) (ns : String) (out : BuildOutput),
      config.platform = "web" →
      createBuildPod config dbI fe q ve ns = .ok out →
      out.secret = none ∧
      (∀ vm ∈ out.pod.volumeMounts, vm.name ≠ "keystore") ∧
      out.pod.env = composedEnvVars config (dbEnvsOfFetch ve)) := by
  constructor
  · intro config fe ve q ns ks out hplat hq hrun
    subst hq
    obtain ⟨cmName, cmObj, secName, secObj, hcm, hsec, hout⟩ :=
      createBuildPod_inv config true fe (.ok ks) ve ns out hrun
    rw [hplat, if_pos rfl] at hsec
    rw [createSecretForKeystore] at hsec
    simp only [Bool.true_eq_false, if_false] at hsec
    cases hdec : b64DecodeChars ks.keystoreFile.data with
    | none =>
      rw [hdec] at hsec
      simp at hsec
    | some bytes =>
      rw [hdec] at hsec
      simp only [Except.ok.injEq, Prod.mk.injEq] at hsec
      obtain ⟨hname, hobj⟩ := hsec
      subst hname
      rw [hout]
      have hne : keystoreSecretName config.buildID ≠ "" :=
        keystoreSecretName_ne_empty config.buildID
      refine ⟨?_, ?_, ?_, ?_, ?_, ?_⟩
      · rw [← hobj]
        rfl
      · simp [hne]
      · simp [hne, keystoreEnvVars]
      · simp [hne, keystoreEnvVars]
      · simp [hne, keystoreEnvVars]
      · simp [hne, keystoreEnvVars]
  · intro config dbI fe ve q ns out hplat hrun
    obtain ⟨cmName, cmObj, secName, secObj, hcm, hsec, hout⟩ :=
      createBuildPod_inv config dbI fe q ve ns out hrun
    rw [hplat] at hsec
    rw [if_neg (by decide)] at hsec
    simp only [Except.ok.injEq, Prod.mk.injEq] at hsec
    obtain ⟨hname, hobj⟩ := hsec
    subst hname
    rw [hout]
    refine ⟨?_, ?_, ?_⟩
    · rw [← hobj]
    · intro vm hvm
      simp only [ne_eq, not_true_eq_false, if_false, List.append_nil] at hvm
      by_cases hc : cmName = ""
      · simp [hc] at hvm
        rw [hvm]
        decide
      · simp [hc] at hvm
        rcases hvm with h | h <;> rw [h] <;> decide
    · simp

/-- Witness for C4: concrete android and web runs with the same keystore. -/
theorem c4_keystore_android_vs_web_witness :
    sampleOutAndroid.secret.isSome = true ∧
    { name := "keystore", mountPath := "/keystore", readOnly := true : VolumeMount } ∈
      sampleOutAndroid.pod.volumeMounts ∧
    { name := "KEYSTORE_PATH", value := "/keystore/keystore.jks" : EnvVar } ∈
      sampleOutAndroid.pod.env ∧
    sampleOutWeb.secret = none := by
  have hand := c4_keystore_android_vs_web.1 (sampleConfig "android") (.ok []) (.ok [])
    (.ok sampleKeystore) "default" sampleKeystore sampleOutAndroid rfl rfl (by rfl)
  have hweb := c4_keystore_android_vs_web.2 (sampleConfig "web") true (.ok []) (.ok [])
    (.ok sampleKeystore) "default" sampleOutWeb rfl (by rfl)
  exact ⟨hand.1, hand.2.1, hand.2.2.1, hweb.1⟩

/-- C9 fails as stated: the created objects carry app=flotio-build, not
app=build-system (shown on the PVC of build 0). -/
theorem c9_claim_counterexample :
    ("app", "build-system") ∉ (createPersistentVolumeClaimForArtifacts 0 "default").labels ∧
    ("app", "flotio-build") ∈ (createPersistentVolumeClaimForArtifacts 0 "default").labels := by
  decide

/-- C9 (amended): every created cluster object (Pod, ConfigMap, Secret, PVC)
carries the labels app=flotio-build and build-id=<id>, and the Pod
additionally carries project-id and platform labels. -/
theorem c9_labels_amended :
    (∀ (id : Nat) (ns : String),
        (createPersistentVolumeClaimForArtifacts id ns).labels =
          [("app", "flotio-build"), ("build-id", itoa id)]) ∧
    (∀ (dbI : Bool) (fe : Except String (List Env)) (id : Nat) (ns nm : String)
        (cm : ConfigMapObj),
        createConfigMapForEnvFiles dbI fe id ns = .ok (nm, some cm) →
        cm.labels = [("app", "flotio-build"), ("build-id", itoa id)]) ∧
    (∀ (dbI : Bool) (q : Except String Keystore) (id : Nat) (ns nm : String)
        (s : SecretObj),
        createSecretForKeystore dbI q id ns = .ok (nm, some s) →
        s.labels = [("app", "flotio-build"), ("build-id", itoa id)]) ∧
    (∀ (config : BuildConfig) (dbI : Bool) (fe ve : Except String (List Env))
        (q : Except String Keystore) (ns : String) (out : BuildOutput),
        createBuildPod config dbI fe q ve ns = .ok out →
        out.pod.labels = [("app", "flotio-build"), ("build-id", itoa config.buildID),
          ("project-id", itoa config.project.id), ("platform", config.platform)]) := by
  refine ⟨?_, ?_, ?_, ?_⟩
  · intro id ns
    rfl
  · intro dbI fe id ns nm cm h
    cases dbI with
    | false => simp [createConfigMapForEnvFiles] at h
    | true =>
      cases fe with
      | error m => simp [createConfigMapForEnvFiles] at h
      | ok envs =>
        by_cases henv : envs = []
        · simp [createConfigMapForEnvFiles, henv] at h
        · cases hdata : configMapDataOf envs with
          | error m => simp [createConfigMapForEnvFiles, henv, hdata] at h
          | ok d =>
            simp [createConfigMapForEnvFiles, henv, hdata] at h
            rw [← h.2]
  · intro dbI q id ns nm s h
    cases dbI with
    | false => simp [createSecretForKeystore] at h
    | true =>
      cases q with
      | error m => simp [createSecretForKeystore] at h
      | ok ks =>
        cases hdec : b64DecodeChars ks.keystoreFile.data with
        | none => simp [createSecretForKeystore, hdec] at h
        | some bytes =>
          simp [createSecretForKeystore, hdec] at h
          rw [← h.2]
  · intro config dbI fe ve q ns out h
    obtain ⟨cmName, cmObj, secName, secObj, hcm, hsec, hout⟩ :=
      createBuildPod_inv config dbI fe q ve ns out h
    rw [hout]

/-- Witness for C9 at the concrete build 0 objects. -/
theorem c9_labels_amended_witness :
    (createPersistentVolumeClaimForArtifacts 0 "default").labels =
      [("app", "flotio-build"), ("build-id", itoa 0)] ∧
    sampleCmObj.labels = [("app", "flotio-build"), ("build-id", itoa 0)] ∧
    sampleSecretObj.labels = [("app", "flotio-build"), ("build-id", itoa 0)] ∧
    sampleOutAndroid.pod.labels = [("app", "flotio-build"), ("build-id", itoa 0),
      ("project-id", itoa 0), ("platform", "android")] := by
  refine ⟨c9_labels_amended.1 0 "default", ?_, ?_, ?_⟩
  · exact c9_labels_amended.2.1 true (.ok [sampleFileEnv]) 0 "default"
      (configMapName 0) sampleCmObj (by rfl)
  · exact c9_labels_amended.2.2.1 true (.ok sampleKeystore) 0 "default"
      (keystoreSecretName 0) sampleSecretObj (by rfl)
  · exact c9_labels_amended.2.2.2 (sampleConfig "android") true (.ok []) (.ok [])
      (.ok sampleKeystore) "default" sampleOutAndroid (by rfl)
